import Mathlib

/-!
Verification of the CloudNexus API request-handling contract.

Shallow embedding of the repository's three modules:
  * `database.py` — the `Task` model, session helpers, `test_db_connection`;
  * `main.py`     — the FastAPI route handlers (`get_items`, `create_item`,
                    `get_item`, `upload_file`, `trigger_backup`, `health_check`);
  * `utils.py`    — S3 helpers (`generate_unique_filename`, `upload_file_to_s3`,
                    `create_backup`).

Wall-clock time is abstracted as an explicit parameter (one clock value per
request), the random uuid fragment and the strftime timestamp are string
parameters, and the S3 / database backends are modelled by explicit
environment records.  HTTP outcomes are status codes together with response
bodies; `Except` models raised exceptions.
-/

namespace CloudNexus

/-- The `Task` SQLAlchemy model of `database.py`: columns `id` (autoincrement
primary key), `title`, `description` (nullable), `status` (default
"pending"), `created_at` / `updated_at` (timestamps, `updated_at` nullable),
`is_active` (default `True`).  Timestamps are abstracted as `Nat`. -/
structure Task where
  id : Nat
  title : String
  description : Option String
  status : String
  created_at : Nat
  updated_at : Option Nat
  is_active : Bool
deriving DecidableEq, Repr

/-- The relational store: the `tasks` table plus the autoincrement counter
(the next id the store will assign; PostgreSQL serial columns start at 1). -/
structure DBState where
  nextId : Nat
  tasks : List Task
deriving DecidableEq, Repr

/-- Request body schema `TaskCreate` of `main.py` (pydantic): `title`
(min_length 1, max_length 255), optional `description`, `status`
defaulting to "pending".  The length bounds are checked by the framework,
see `validTaskCreate`. -/
structure TaskCreate where
  title : String
  description : Option String
  status : String
deriving DecidableEq, Repr

/-- `valid_statuses` from `create_item` in `main.py`. -/
def valid_statuses : List String := ["pending", "in_progress", "completed"]

/-- Handler `create_item` of `main.py`: rejects a status outside
`valid_statuses` with HTTP 400 before touching the database; otherwise
inserts a fresh row whose `id` is store-assigned and whose column defaults
set `created_at`, `updated_at` to the insert-time clock and `is_active` to
`True`.  Returns the created task and the updated store (unchanged on
error). -/
def create_item (σ : DBState) (now : Nat) (req : TaskCreate) :
    Except Nat Task × DBState :=
  if !(valid_statuses.contains req.status) then
    (.error 400, σ)
  else
    let db_task : Task :=
      { id := σ.nextId, title := req.title, description := req.description,
        status := req.status, created_at := now, updated_at := some now,
        is_active := true }
    (.ok db_task, { nextId := σ.nextId + 1, tasks := σ.tasks ++ [db_task] })

/-- Handler `get_items` of `main.py`: filters `is_active == True`, then —
only when the `status` query parameter is truthy in the Python sense
(present AND non-empty, `if status:`) — filters on exact status match,
then applies `offset(skip).limit(limit)`. -/
def get_items (tasks : List Task) (skip limit : Nat)
    (status : Option String) : List Task :=
  let q := tasks.filter (fun t => t.is_active)
  let q2 :=
    match status with
    | some s => if s = "" then q else q.filter (fun t => t.status == s)
    | none => q
  (q2.drop skip).take limit

/-- Handler `get_item` of `main.py`: first row with matching id and
`is_active == True`, else HTTP 404. -/
def get_item (tasks : List Task) (item_id : Nat) : Except Nat Task :=
  match tasks.find? (fun t => t.id == item_id && t.is_active) with
  | some t => .ok t
  | none => .error 404

/-! ### Router stage (FastAPI parameter validation)

`main.py` declares `skip: int = Query(0, ge=0)`,
`limit: int = Query(100, ge=1, le=1000)` and, on `TaskCreate`,
`title: str = Field(..., min_length=1, max_length=255)`.  The framework
(FastAPI/pydantic, imported by `main.py`) checks these declared schemas
before the endpoint body runs and answers a violation with HTTP 422
(`RequestValidationError`); `main.py` installs no handler that would remap
it.  The endpoint body — and hence any database work — runs only when the
declared schema accepts the request. -/

/-- Declared schema of the `GET /items` query parameters. -/
structure ListQuery where
  skip : Int
  limit : Int
  status : Option String
deriving DecidableEq, Repr

/-- The declared range constraints on `skip` and `limit` in `get_items`. -/
def validListQuery (q : ListQuery) : Bool :=
  0 ≤ q.skip && 1 ≤ q.limit && q.limit ≤ 1000

/-- The declared pydantic constraint on `TaskCreate.title`
(`min_length=1, max_length=255`). -/
def validTaskCreate (b : TaskCreate) : Bool :=
  1 ≤ b.title.length && b.title.length ≤ 255

/-- An HTTP response together with a flag recording whether any backend
(database query / object-store call) was invoked while producing it. -/
structure RouteResponse (β : Type) where
  httpStatus : Nat
  backendCalled : Bool
  body : Option β
deriving DecidableEq, Repr

/-- `GET /items` as routed: declared-schema validation first (422 on
violation, endpoint body never runs), then the `get_items` handler. -/
def route_get_items (σ : DBState) (q : ListQuery) : RouteResponse (List Task) :=
  if validListQuery q then
    ⟨200, true, some (get_items σ.tasks q.skip.toNat q.limit.toNat q.status)⟩
  else ⟨422, false, none⟩

/-- `POST /items` as routed: declared-schema validation of the body first
(422 on violation), then the `create_item` handler; the handler's own
status check answers 400 before any database operation. -/
def route_create_item (σ : DBState) (now : Nat) (b : TaskCreate) :
    RouteResponse Task × DBState :=
  if validTaskCreate b then
    match create_item σ now b with
    | (.ok t, σ2) => (⟨201, true, some t⟩, σ2)
    | (.error c, σ2) => (⟨c, false, none⟩, σ2)
  else (⟨422, false, none⟩, σ)

/-! ### S3 helpers (`utils.py`) -/

/-- The process environment as far as the S3 helpers read it:
`S3_BUCKET` (may be unset) and `AWS_REGION`. -/
structure Env where
  bucket : Option String
  region : String
deriving DecidableEq, Repr

/-- `get_s3_bucket` of `utils.py`: raises `ValueError` when `S3_BUCKET`
is unset or empty (`if not bucket:`). -/
def get_s3_bucket (env : Env) : Except String String :=
  match env.bucket with
  | none => .error "S3_BUCKET environment variable is not set"
  | some b =>
    if b = "" then .error "S3_BUCKET environment variable is not set"
    else .ok b

/-- Splits a character list at its LAST dot: `some (before, after)` when a
dot occurs, `none` otherwise.  Embeds Python's `rsplit(".", 1)` under the
`"." in original_filename` guard of `generate_unique_filename`. -/
def splitLastDot : List Char → Option (List Char × List Char)
  | [] => none
  | c :: rest =>
    match splitLastDot rest with
    | some (n, e) => some (c :: n, e)
    | none => if c = '.' then some ([], rest) else none

/-- String-level wrapper of `splitLastDot`. -/
def lastDotSplit (s : String) : Option (String × String) :=
  (splitLastDot s.data).map (fun p => (⟨p.1⟩, ⟨p.2⟩))

/-- `generate_unique_filename` of `utils.py`, with the strftime timestamp
and the 8-char uuid fragment passed in as parameters: when the filename
contains a dot it is rsplit at the last dot into `name` and `ext` and the
result is `{ts}_{uid}_{name}.{ext}`; otherwise `{ts}_{uid}_{original}`. -/
def generate_unique_filename (ts uid original : String) : String :=
  match lastDotSplit original with
  | some (name, ext) => ts ++ "_" ++ uid ++ "_" ++ name ++ "." ++ ext
  | none => ts ++ "_" ++ uid ++ "_" ++ original

/-- `upload_file_to_s3` of `utils.py` with the default `"uploads"` key
path: resolves the bucket (`ValueError` when unset), generates the unique
filename, forms the key `uploads/{unique_filename}` and the public URL.
Returns `(s3_key, s3_url)`; the object-store put itself is abstracted as
succeeding. -/
def upload_file_to_s3 (env : Env) (ts uid original : String) :
    Except String (String × String) :=
  match get_s3_bucket env with
  | .error e => .error e
  | .ok bucket =>
    let s3_key := "uploads/" ++ generate_unique_filename ts uid original
    .ok (s3_key,
      "https://" ++ bucket ++ ".s3." ++ env.region ++ ".amazonaws.com/" ++ s3_key)

/-- `max_size` of the `upload_file` handler in `main.py`: 10 MiB. -/
def max_size : Nat := 10 * 1024 * 1024

/-- Outcome of the `POST /upload` handler: HTTP status, whether the
object-store put was reached, and the returned URL when successful. -/
structure UploadOutcome where
  httpStatus : Nat
  s3Called : Bool
  s3_url : Option String
deriving DecidableEq, Repr

/-- Handler `upload_file` of `main.py`: 400 when no filename, 413 when the
content is over `max_size` (checked before any S3 work), then
`upload_file_to_s3`; its `ValueError` (unset bucket) is caught and mapped
to HTTP 500 — the put is never reached in that case. -/
def upload_file (env : Env) (ts uid filename : String) (size : Nat) :
    UploadOutcome :=
  if filename = "" then ⟨400, false, none⟩
  else if max_size < size then ⟨413, false, none⟩
  else
    match upload_file_to_s3 env ts uid filename with
    | .error _ => ⟨500, false, none⟩
    | .ok (_, url) => ⟨200, true, some url⟩

/-! ### Backup (`utils.py` / `main.py`) -/

/-- The `backup_content` dictionary assembled by `create_backup`. -/
structure BackupContent (α : Type) where
  backup_timestamp : String
  table_name : String
  record_count : Nat
  data : List α
deriving DecidableEq, Repr

/-- Result of `create_backup`: the object key, the content type passed to
`put_object`, the serialized document and the metadata echoed back. -/
structure BackupResult (α : Type) where
  s3_key : String
  s3_url : String
  contentType : String
  content : BackupContent α
  record_count : Nat
  backup_timestamp : String
deriving DecidableEq, Repr

/-- `create_backup` of `utils.py`, with the strftime key timestamp `ts`
and the ISO body timestamp `iso` passed in: resolves the bucket
(`ValueError` when unset), writes the document
`{backup_timestamp, table_name, record_count, data}` under the key
`backups/{table_name}_backup_{ts}.json` with content type
`application/json`.  JSON text serialization is abstracted: the document
is kept as the `BackupContent` record. -/
def create_backup (env : Env) (ts iso : String) (data : List α)
    (table_name : String) : Except String (BackupResult α) :=
  match get_s3_bucket env with
  | .error e => .error e
  | .ok bucket =>
    let backup_filename := table_name ++ "_backup_" ++ ts ++ ".json"
    let s3_key := "backups/" ++ backup_filename
    .ok { s3_key := s3_key,
          s3_url := "https://" ++ bucket ++ ".s3." ++ env.region ++
            ".amazonaws.com/" ++ s3_key,
          contentType := "application/json",
          content := ⟨iso, table_name, data.length, data⟩,
          record_count := data.length,
          backup_timestamp := iso }

/-- The dictionary produced by `Task.to_dict` in `database.py`
(timestamps kept abstract instead of ISO-formatted). -/
structure TaskDict where
  id : Nat
  title : String
  description : Option String
  status : String
  created_at : Option Nat
  updated_at : Option Nat
  is_active : Bool
deriving DecidableEq, Repr

/-- `Task.to_dict` of `database.py`. -/
def taskToDict (t : Task) : TaskDict :=
  { id := t.id, title := t.title, description := t.description,
    status := t.status, created_at := some t.created_at,
    updated_at := t.updated_at, is_active := t.is_active }

/-- Handler `trigger_backup` of `main.py`: queries the active tasks,
converts them with `to_dict`, and calls `create_backup` with table name
`"tasks"`; a `ValueError` becomes HTTP 500. -/
def trigger_backup (σ : DBState) (env : Env) (ts iso : String) :
    Except Nat (BackupResult TaskDict) :=
  let tasks := σ.tasks.filter (fun t => t.is_active)
  let tasks_data := tasks.map taskToDict
  match create_backup env ts iso tasks_data "tasks" with
  | .error _ => .error 500
  | .ok r => .ok r

/-! ### Health (`main.py` / `database.py`) -/

/-- Abstract outcome of the `SELECT 1` connectivity probe run by
`test_db_connection`: success with a measured latency, or an exception
carrying a message. -/
inductive DbProbe where
  | ok (latency_ms : Nat)
  | fail (msg : String)
deriving DecidableEq, Repr

/-- The dictionary returned by `test_db_connection` in `database.py`. -/
structure DbStatus where
  status : String
  database : String
  latency_ms : Option Nat
  error : Option String
deriving DecidableEq, Repr

/-- `test_db_connection` of `database.py`: `SELECT 1` succeeded →
`{status: "healthy", database: "connected", latency_ms}`; any exception →
`{status: "unhealthy", database: "disconnected", error: str(e)}`. -/
def test_db_connection : DbProbe → DbStatus
  | .ok l => ⟨"healthy", "connected", some l, none⟩
  | .fail msg => ⟨"unhealthy", "disconnected", none, some msg⟩

/-- Body of the `GET /health` response assembled by `health_check`. -/
structure HealthBody where
  status : String
  timestamp : String
  database : DbStatus
  version : String
deriving DecidableEq, Repr

/-- Handler `health_check` of `main.py`: always answers HTTP 200; the
top-level status is `"healthy"` exactly when the database probe reported
`"healthy"`, and `"degraded"` otherwise. -/
def health_check (probe : DbProbe) (iso : String) : Nat × HealthBody :=
  let db_status := test_db_connection probe
  (200,
    ⟨if db_status.status = "healthy" then "healthy" else "degraded",
      iso, db_status, "1.0.0"⟩)

/-! ### Sample data used by witnesses and counterexamples -/

/-- A sample active task with status "pending". -/
def sampleActivePending : Task := ⟨1, "t", none, "pending", 0, some 0, true⟩

/-- A sample active task with status "completed". -/
def sampleActiveCompleted : Task := ⟨2, "u", none, "completed", 0, some 0, true⟩

/-- Spec-side list filter, following the spec's words: a task is selected
when `is_active = true` and, when a status parameter is given, its status
equals that parameter exactly. -/
def specListMatch (status : Option String) (t : Task) : Bool :=
  t.is_active &&
    (match status with
     | some s => t.status == s
     | none => true)

/-! ### Claims -/

/-- Claim C1: every successful create returns a task with a positive id,
`is_active = true`, and `created_at` equal to `updated_at` at the moment
of creation (both set from the insert-time clock). -/
theorem create_item_fresh_task_ok (σ : DBState) (now : Nat) (req : TaskCreate)
    (hid : 0 < σ.nextId) (hst : valid_statuses.contains req.status = true) :
    ∃ t, (create_item σ now req).1 = Except.ok t ∧
      0 < t.id ∧ t.is_active = true ∧ t.updated_at = some t.created_at := by
  have hst2 : req.status ∈ valid_statuses := by simpa using hst
  have heq : (create_item σ now req).1 =
      Except.ok ⟨σ.nextId, req.title, req.description, req.status, now,
        some now, true⟩ := by
    simp [create_item, hst2]
  exact ⟨_, heq, hid, rfl, rfl⟩

/-- Witness for C1 at a concrete store and request. -/
theorem create_item_fresh_task_ok_witness :
    ∃ t, (create_item ⟨1, []⟩ 5 ⟨"t", none, "pending"⟩).1 = Except.ok t ∧
      0 < t.id ∧ t.is_active = true ∧ t.updated_at = some t.created_at :=
  create_item_fresh_task_ok ⟨1, []⟩ 5 ⟨"t", none, "pending"⟩ (by decide)
    (by decide)

/-- Claim C2 as stated fails on the code: with the empty string passed as
the status parameter, `get_items` returns an active "pending" task even
though no task has status equal to the given parameter — the Python
truthiness test `if status:` skips the filter for `""`. -/
theorem get_items_empty_status_cex :
    get_items [sampleActivePending] 0 100 (some "") = [sampleActivePending] ∧
    ¬ (sampleActivePending.status = "") ∧
    List.filter (specListMatch (some "")) [sampleActivePending] = [] := by
  decide

/-- Claim C2 amended: for a list request whose status parameter is absent
or a NON-empty string, the result is exactly the tasks selected by the
spec filter (`is_active`, and exact status match when given), with offset
and limit applied after filtering; when nothing matches the result is the
empty list (no failure). -/
theorem get_items_spec_filter (tasks : List Task) (skip limit : Nat)
    (status : Option String) (_hlim : 1 ≤ limit ∧ limit ≤ 1000)
    (hs : status ≠ some "") :
    get_items tasks skip limit status =
      ((tasks.filter (specListMatch status)).drop skip).take limit ∧
    (tasks.filter (specListMatch status) = [] →
      get_items tasks skip limit status = []) := by
  have key : get_items tasks skip limit status =
      ((tasks.filter (specListMatch status)).drop skip).take limit := by
    cases status with
    | none =>
      have h1 : tasks.filter (specListMatch none) =
          tasks.filter (fun t => t.is_active) :=
        List.filter_congr (fun t _ => by simp [specListMatch])
      simp only [get_items, h1]
    | some s =>
      have hne : ¬ (s = "") := fun h => hs (by rw [h])
      have h2 : tasks.filter (specListMatch (some s)) =
          (tasks.filter (fun t => t.is_active)).filter
            (fun t => t.status == s) := by
        rw [List.filter_filter]
        exact List.filter_congr (fun t _ => by
          cases h : t.is_active <;> simp [specListMatch, h])
      simp only [get_items, if_neg hne, h2]
  refine ⟨key, fun hempty => ?_⟩
  rw [key, hempty]
  simp

/-- Witness for the amended C2 at a concrete store and query. -/
theorem get_items_spec_filter_witness :
    get_items [sampleActivePending, sampleActiveCompleted] 0 100
        (some "completed") =
      ((([sampleActivePending, sampleActiveCompleted].filter
          (specListMatch (some "completed")))).drop 0).take 100 ∧
    ([sampleActivePending, sampleActiveCompleted].filter
        (specListMatch (some "completed")) = [] →
      get_items [sampleActivePending, sampleActiveCompleted] 0 100
        (some "completed") = []) :=
  get_items_spec_filter [sampleActivePending, sampleActiveCompleted] 0 100
    (some "completed") ⟨by decide, by decide⟩ (by decide)

/-- Claim C4: a create request of valid shape whose status is outside
{pending, in_progress, completed} is answered with HTTP 400, no database
operation runs, and the stored set of tasks is unchanged. -/
theorem route_create_item_invalid_status_400 (σ : DBState) (now : Nat)
    (b : TaskCreate) (hv : validTaskCreate b = true)
    (hs : valid_statuses.contains b.status = false) :
    (route_create_item σ now b).1.httpStatus = 400 ∧
    (route_create_item σ now b).1.backendCalled = false ∧
    (route_create_item σ now b).2 = σ := by
  have hs2 : ¬ (b.status ∈ valid_statuses) := by simpa using hs
  simp [route_create_item, create_item, hv, hs2]

/-- Witness for C4: a create with status "archived" is answered 400 and
leaves the store unchanged. -/
theorem route_create_item_invalid_status_400_witness :
    (route_create_item ⟨1, []⟩ 0 ⟨"t", none, "archived"⟩).1.httpStatus = 400 ∧
    (route_create_item ⟨1, []⟩ 0 ⟨"t", none, "archived"⟩).1.backendCalled =
      false ∧
    (route_create_item ⟨1, []⟩ 0 ⟨"t", none, "archived"⟩).2 = ⟨1, []⟩ :=
  route_create_item_invalid_status_400 ⟨1, []⟩ 0 ⟨"t", none, "archived"⟩
    (by decide) (by decide)

/-- Claim C10: passing the empty string as the status parameter applies no
status filter at all — the result coincides with the result of the same
request with no status given. -/
theorem get_items_empty_status_no_filter (tasks : List Task)
    (skip limit : Nat) :
    get_items tasks skip limit (some "") = get_items tasks skip limit none := by
  simp [get_items]

/-- Claim C3 as stated fails on the code: a list request with `skip = -1`
violates the declared schema and is rejected before any backend call, but
with HTTP 422 (the FastAPI `RequestValidationError` default), not 400. -/
theorem route_get_items_invalid_not_400 :
    validListQuery ⟨-1, 100, none⟩ = false ∧
    (route_get_items ⟨1, []⟩ ⟨-1, 100, none⟩).httpStatus = 422 ∧
    (route_get_items ⟨1, []⟩ ⟨-1, 100, none⟩).backendCalled = false ∧
    ¬ ((route_get_items ⟨1, []⟩ ⟨-1, 100, none⟩).httpStatus = 400) := by
  decide

/-- Claim C3 amended: a request whose query or body parameters violate the
declared schema (title length outside 1–255, skip < 0, limit outside
[1,1000]) is rejected with HTTP 422 before any repository or service
operation is invoked. -/
theorem route_rejects_invalid_schema (σ : DBState) (q : ListQuery)
    (now : Nat) (b : TaskCreate) :
    (validListQuery q = false →
      route_get_items σ q = ⟨422, false, none⟩) ∧
    (validTaskCreate b = false →
      (route_create_item σ now b).1 = ⟨422, false, none⟩ ∧
      (route_create_item σ now b).2 = σ) := by
  constructor
  · intro h
    simp [route_get_items, h]
  · intro h
    simp [route_create_item, h]

/-- Witness for the amended C3: an out-of-range `skip` and an empty title
are both rejected with 422 and no backend call. -/
theorem route_rejects_invalid_schema_witness :
    route_get_items ⟨1, []⟩ ⟨0, 1001, none⟩ = ⟨422, false, none⟩ ∧
    ((route_create_item ⟨1, []⟩ 0 ⟨"", none, "pending"⟩).1 =
        ⟨422, false, none⟩ ∧
      (route_create_item ⟨1, []⟩ 0 ⟨"", none, "pending"⟩).2 = ⟨1, []⟩) :=
  ⟨(route_rejects_invalid_schema ⟨1, []⟩ ⟨0, 1001, none⟩ 0
      ⟨"", none, "pending"⟩).1 (by decide),
   (route_rejects_invalid_schema ⟨1, []⟩ ⟨0, 1001, none⟩ 0
      ⟨"", none, "pending"⟩).2 (by decide)⟩

/-- Claim C5: a named upload whose content exceeds 10 MiB is answered 413
with no object-store call; a named upload of at most 10 MiB with the
bucket unset is answered 500 (the `ValueError` of `get_s3_bucket`), again
with no object-store call reached. -/
theorem upload_size_and_bucket_errors (env : Env) (ts uid filename : String)
    (size : Nat) (hfn : filename ≠ "") :
    (max_size < size →
      upload_file env ts uid filename size = ⟨413, false, none⟩) ∧
    (size ≤ max_size → env.bucket = none →
      upload_file env ts uid filename size = ⟨500, false, none⟩) := by
  constructor
  · intro h
    simp [upload_file, hfn, h]
  · intro hle hb
    simp [upload_file, hfn, Nat.not_lt.mpr hle, upload_file_to_s3,
      get_s3_bucket, hb]

/-- Witness for C5 at exactly 10 MiB + 1 byte, and at a small size with
the bucket unset. -/
theorem upload_size_and_bucket_errors_witness :
    upload_file ⟨none, "us-east-1"⟩ "20240101_000000" "abcd1234" "a.txt"
        (10 * 1024 * 1024 + 1) = ⟨413, false, none⟩ ∧
    upload_file ⟨none, "us-east-1"⟩ "20240101_000000" "abcd1234" "a.txt" 7 =
      ⟨500, false, none⟩ :=
  ⟨(upload_size_and_bucket_errors ⟨none, "us-east-1"⟩ "20240101_000000"
      "abcd1234" "a.txt" (10 * 1024 * 1024 + 1) (by decide)).1 (by decide),
   (upload_size_and_bucket_errors ⟨none, "us-east-1"⟩ "20240101_000000"
      "abcd1234" "a.txt" 7 (by decide)).2 (by decide) rfl⟩

/-- Claim C7: for every record list and table name, a backup with the
bucket configured writes the document `{backup_timestamp, table_name,
record_count, data}` to key `backups/{table_name}_backup_{ts}.json` with
content type `application/json`, where `record_count` is the length of
the record list and `data` is the record list itself. -/
theorem create_backup_document_format {α : Type} (env : Env)
    (b ts iso tn : String) (data : List α) (hb : env.bucket = some b)
    (hbne : b ≠ "") :
    ∃ r, create_backup env ts iso data tn = .ok r ∧
      r.s3_key = "backups/" ++ (tn ++ "_backup_" ++ ts ++ ".json") ∧
      r.contentType = "application/json" ∧
      r.content.backup_timestamp = iso ∧
      r.content.table_name = tn ∧
      r.content.record_count = data.length ∧
      r.content.data = data := by
  have heq : create_backup env ts iso data tn =
      .ok ⟨"backups/" ++ (tn ++ "_backup_" ++ ts ++ ".json"),
        "https://" ++ b ++ ".s3." ++ env.region ++ ".amazonaws.com/" ++
          ("backups/" ++ (tn ++ "_backup_" ++ ts ++ ".json")),
        "application/json", ⟨iso, tn, data.length, data⟩, data.length,
        iso⟩ := by
    simp [create_backup, get_s3_bucket, hb, hbne]
  exact ⟨_, heq, rfl, rfl, rfl, rfl, rfl, rfl⟩

/-- Witness for C7 with zero records: the backup succeeds with
`record_count = 0` and `data = []`. -/
theorem create_backup_document_format_witness :
    ∃ r, create_backup ⟨some "bkt", "us-east-1"⟩ "20240101_000000" "iso"
        ([] : List Nat) "tasks" = .ok r ∧
      r.s3_key = "backups/" ++ ("tasks" ++ "_backup_" ++ "20240101_000000" ++
        ".json") ∧
      r.contentType = "application/json" ∧
      r.content.backup_timestamp = "iso" ∧
      r.content.table_name = "tasks" ∧
      r.content.record_count = ([] : List Nat).length ∧
      r.content.data = ([] : List Nat) :=
  create_backup_document_format ⟨some "bkt", "us-east-1"⟩ "bkt"
    "20240101_000000" "iso" "tasks" ([] : List Nat) rfl (by decide)

/-- Claim C8: when the connectivity probe fails (with a non-empty
exception message) the health response still carries HTTP 200, reports
top-level status "degraded" and a non-empty database error field; when
the probe succeeds the top-level status is "healthy". -/
theorem health_check_statuses (msg iso : String) (l : Nat) (hm : msg ≠ "") :
    ((health_check (.fail msg) iso).1 = 200 ∧
      (health_check (.fail msg) iso).2.status = "degraded" ∧
      (health_check (.fail msg) iso).2.database.error = some msg ∧
      (health_check (.fail msg) iso).2.database.error ≠ some "" ∧
      (health_check (.fail msg) iso).2.database.error ≠ none) ∧
    ((health_check (.ok l) iso).1 = 200 ∧
      (health_check (.ok l) iso).2.status = "healthy") := by
  refine ⟨⟨rfl, ?_, rfl, ?_, ?_⟩, rfl, ?_⟩
  · simp [health_check, test_db_connection]
  · simpa [health_check, test_db_connection] using hm
  · simp [health_check, test_db_connection]
  · simp [health_check, test_db_connection]

/-- Witness for C8 at a concrete failure message and latency. -/
theorem health_check_statuses_witness :
    ((health_check (.fail "connection refused") "2024-01-01T00:00:00").1 =
        200 ∧
      (health_check (.fail "connection refused")
          "2024-01-01T00:00:00").2.status = "degraded" ∧
      (health_check (.fail "connection refused")
          "2024-01-01T00:00:00").2.database.error =
        some "connection refused" ∧
      (health_check (.fail "connection refused")
          "2024-01-01T00:00:00").2.database.error ≠ some "" ∧
      (health_check (.fail "connection refused")
          "2024-01-01T00:00:00").2.database.error ≠ none) ∧
    ((health_check (.ok 3) "2024-01-01T00:00:00").1 = 200 ∧
      (health_check (.ok 3) "2024-01-01T00:00:00").2.status = "healthy") :=
  health_check_statuses "connection refused" "2024-01-01T00:00:00" 3
    (by decide)

/-- `splitLastDot` answers `none` exactly on dot-free inputs. -/
theorem splitLastDot_eq_none (cs : List Char) :
    splitLastDot cs = none ↔ '.' ∉ cs := by
  induction cs with
  | nil => simp [splitLastDot]
  | cons c rest ih =>
    rw [splitLastDot]
    cases h : splitLastDot rest with
    | some p =>
      have hd : '.' ∈ rest := by
        by_contra hc
        rw [ih.mpr hc] at h
        cases h
      simp [List.mem_cons, hd]
    | none =>
      by_cases hc : c = '.'
      · simp [hc]
      · have hrest : '.' ∉ rest := ih.mp h
        simp [hc, hrest, List.mem_cons, Ne.symm hc]

/-- A successful `splitLastDot` splits its input at a dot, and the suffix
it returns is dot-free — so the split is at the LAST dot. -/
theorem splitLastDot_eq_some (cs : List Char) :
    ∀ n e, splitLastDot cs = some (n, e) → cs = n ++ '.' :: e ∧ '.' ∉ e := by
  induction cs with
  | nil => intro n e h; cases h
  | cons c rest ih =>
    intro n e h
    rw [splitLastDot] at h
    cases hr : splitLastDot rest with
    | some p =>
      rw [hr] at h
      obtain ⟨pn, pe⟩ := p
      obtain ⟨hn, he⟩ : c :: pn = n ∧ pe = e := by
        injection h with h2
        injection h2 with h3 h4
        exact ⟨h3, h4⟩
      obtain ⟨hrec, hdot⟩ := ih pn pe hr
      subst hn he
      exact ⟨by rw [hrec]; rfl, hdot⟩
    | none =>
      rw [hr] at h
      by_cases hc : c = '.'
      · rw [if_pos hc] at h
        obtain ⟨hn, he⟩ : ([] : List Char) = n ∧ rest = e := by
          injection h with h2
          injection h2 with h3 h4
          exact ⟨h3, h4⟩
        subst hn he
        exact ⟨by simp [hc], (splitLastDot_eq_none rest).mp hr⟩
      · rw [if_neg hc] at h
        cases h

/-- Claim C6: a configured upload stores under the key
`uploads/{ts}_{uid}_{filename'}` where `filename'` is
`{name}.{ext}` with the extension split off at the LAST dot of the
original filename (so `name ++ "." ++ ext` is the original filename and
`ext` is dot-free), and is the unmodified original filename when it
contains no dot. -/
theorem upload_key_format (ts uid original : String) :
    (∀ b r, b ≠ "" →
      upload_file_to_s3 ⟨some b, r⟩ ts uid original =
        .ok ("uploads/" ++ generate_unique_filename ts uid original,
          "https://" ++ b ++ ".s3." ++ r ++ ".amazonaws.com/" ++
            ("uploads/" ++ generate_unique_filename ts uid original))) ∧
    ((∃ name ext : String, original = name ++ "." ++ ext ∧
        '.' ∉ ext.data ∧
        generate_unique_filename ts uid original =
          ts ++ "_" ++ uid ++ "_" ++ name ++ "." ++ ext) ∨
     ('.' ∉ original.data ∧
        generate_unique_filename ts uid original =
          ts ++ "_" ++ uid ++ "_" ++ original)) := by
  constructor
  · intro b r hb
    simp [upload_file_to_s3, get_s3_bucket, hb]
  · cases h : splitLastDot original.data with
    | some p =>
      obtain ⟨n, e⟩ := p
      obtain ⟨hrec, hdot⟩ := splitLastDot_eq_some original.data n e h
      refine .inl ⟨⟨n⟩, ⟨e⟩, ?_, hdot, ?_⟩
      · show original = String.mk n ++ String.mk ['.'] ++ String.mk e
        have : String.mk n ++ String.mk ['.'] ++ String.mk e =
            String.mk ((n ++ ['.']) ++ e) := rfl
        rw [this, List.append_assoc]
        exact congrArg String.mk hrec
      · simp [generate_unique_filename, lastDotSplit, h]
    | none =>
      refine .inr ⟨(splitLastDot_eq_none original.data).mp h, ?_⟩
      simp [generate_unique_filename, lastDotSplit, h]

/-- Witness for C6 at a concrete bucket, region, and filename. -/
theorem upload_key_format_witness :
    upload_file_to_s3 ⟨some "bkt", "us-east-1"⟩ "20240101_000000" "abcd1234"
        "report.final.pdf" =
      .ok ("uploads/" ++ generate_unique_filename "20240101_000000"
          "abcd1234" "report.final.pdf",
        "https://" ++ "bkt" ++ ".s3." ++ "us-east-1" ++ ".amazonaws.com/" ++
          ("uploads/" ++ generate_unique_filename "20240101_000000"
            "abcd1234" "report.final.pdf")) :=
  (upload_key_format "20240101_000000" "abcd1234" "report.final.pdf").1
    "bkt" "us-east-1" (by decide)

/-- Claim C9: no exposed operation clears `is_active` — after a create,
every stored task was either already stored or is the fresh task, which
is created with `is_active = true` (list, get, upload, backup and health
never write the task store at all: their handlers take the store as a
read-only input in this model, matching the absence of any
update/delete statement in `main.py`) — and every task surfaced by a
read (list, get, or the records of a backup) has `is_active = true`. -/
theorem active_visibility_invariant :
    (∀ (σ : DBState) (now : Nat) (req : TaskCreate) (t : Task),
      t ∈ (create_item σ now req).2.tasks →
        t ∈ σ.tasks ∨ t.is_active = true) ∧
    (∀ (tasks : List Task) (skip limit : Nat) (status : Option String)
      (t : Task), t ∈ get_items tasks skip limit status →
        t.is_active = true) ∧
    (∀ (tasks : List Task) (i : Nat) (t : Task),
      get_item tasks i = .ok t → t.is_active = true) ∧
    (∀ (σ : DBState) (env : Env) (ts iso : String)
      (r : BackupResult TaskDict), trigger_backup σ env ts iso = .ok r →
        ∀ d ∈ r.content.data, d.is_active = true) := by
  refine ⟨?_, ?_, ?_, ?_⟩
  · intro σ now req t ht
    by_cases h : req.status ∈ valid_statuses
    · simp [create_item, h] at ht
      rcases ht with h1 | h1
      · exact .inl h1
      · right
        rw [h1]
    · simp [create_item, h] at ht
      exact .inl ht
  · intro tasks skip limit status t ht
    cases status with
    | none =>
      simp only [get_items] at ht
      exact (List.mem_filter.mp
        (List.mem_of_mem_drop (List.mem_of_mem_take ht))).2
    | some s =>
      by_cases hs : s = ""
      · simp only [get_items, if_pos hs] at ht
        exact (List.mem_filter.mp
          (List.mem_of_mem_drop (List.mem_of_mem_take ht))).2
      · simp only [get_items, if_neg hs] at ht
        exact (List.mem_filter.mp (List.mem_filter.mp
          (List.mem_of_mem_drop (List.mem_of_mem_take ht))).1).2
  · intro tasks i t h
    unfold get_item at h
    cases hf : tasks.find? (fun t => t.id == i && t.is_active) with
    | none => rw [hf] at h; cases h
    | some u =>
      rw [hf] at h
      injection h with h2
      subst h2
      have hp := List.find?_some hf
      simp only [Bool.and_eq_true, beq_iff_eq] at hp
      exact hp.2
  · intro σ env ts iso r h d hd
    unfold trigger_backup create_backup at h
    cases hge : get_s3_bucket env with
    | error e => rw [hge] at h; cases h
    | ok bucket =>
      rw [hge] at h
      injection h with h2
      subst h2
      simp only [List.mem_map] at hd
      obtain ⟨t, hmem, hdict⟩ := hd
      have : t.is_active = true := (List.mem_filter.mp hmem).2
      rw [← hdict]
      simpa [taskToDict] using this

/-- Witness for C9 at a concrete store: a task surfaced by a concrete
list request is active. -/
theorem active_visibility_invariant_witness :
    sampleActivePending.is_active = true :=
  active_visibility_invariant.2.1 [sampleActivePending] 0 100 none
    sampleActivePending (by decide)

end CloudNexus
